import Mathlib

/-
Verification development for the molt-md backend (src/app/views.py,
src/app/encryption.py, src/app/serializers.py, src/app/models.py).

Shallow embedding conventions:
* A capability string (URL-safe base64 of a 256-bit key) is modelled as the
  abstract type Key := Nat; base64 decode_key is the identity in this model,
  so key_b64 and raw_key collapse into one value.
* SHA-256 (hash_key) and HMAC-SHA256 derivation (derive_read_key) are
  modelled as ideal collision-free functions: hashKey is injective and
  deriveReadKey is injective.  One-wayness is not needed by any theorem
  below, so the concrete choices hashKey k = k and deriveReadKey k = k + 1
  are a faithful idealization for the control-flow properties proved here.
* AES-256-GCM is modelled as an ideal AEAD: a ciphertext remembers the
  plaintext, the key and the nonce it was produced with, and decryption
  succeeds exactly when the same key and nonce are presented; a tag
  verification failure (InvalidTag) is Option.none.
* Django/DRF exceptions and error Responses are collapsed into the Fault
  type; an InvalidTag exception that no handler catches is the separate
  constructor Fault.uncaughtInvalidTag, distinct from every handled error.
* json.dumps/json.loads on workspace content are modelled as the identity
  on the structured value WsData (JSON round-trips these values).
-/

namespace MoltMd

/-- A capability key (the base64 string and its decoded 32 raw bytes are
identified, since decode_key is a bijection on well-formed inputs). -/
abbrev Key := Nat

/-- Model of derive_read_key (encryption.py lines 83-97):
HMAC-SHA256(write_key, "molt-read"), idealized as an injective one-way
function on keys. -/
def deriveReadKey (k : Key) : Key := k + 1

/-- Model of hash_key (encryption.py lines 100-111): SHA-256 of the decoded
key, idealized as an injective (collision-free) function. -/
def hashKey (k : Key) : Nat := k

/-- An ideal AEAD ciphertext: records the encrypted plaintext together with
the key and nonce used by encrypt_content (encryption.py lines 32-46). -/
structure Cipher (α : Type) where
  pt : α
  key : Key
  usedNonce : Nat
deriving DecidableEq, Repr

/-- Model of encrypt_content (encryption.py lines 32-46); the fresh random
96-bit nonce is passed in explicitly. Returns (ciphertext, nonce). -/
def encryptContent (content : α) (rawKey : Key) (nonce : Nat) : Cipher α × Nat :=
  (⟨content, rawKey, nonce⟩, nonce)

/-- Model of decrypt_content (encryption.py lines 49-66): AES-GCM open;
none models the InvalidTag exception (wrong key or wrong nonce). -/
def decryptContent (c : Cipher α) (nonce : Nat) (rawKey : Key) : Option α :=
  if rawKey = c.key ∧ nonce = c.usedNonce then some c.pt else none

/-- The faults a request can end in.  The first five model DRF exceptions
and error Responses produced by views.py; uncaughtInvalidTag models an
InvalidTag exception propagating out of the view uncaught (an HTTP 500);
serializerFieldMissing models DRF raising on a declared response-serializer
field that is absent from the instance dict (also an HTTP 500). -/
inductive Fault where
  | notFound (msg : String)
  | permissionDenied (msg : String)
  | badRequest (msg : String)
  | payloadTooLarge (msg : String)
  | conflict (currentVersion : Int)
  | uncaughtInvalidTag
  | serializerFieldMissing (field : String)
deriving DecidableEq, Repr

/-- Model of custom_exception_handler (views.py lines 65-90) plus the
direct error Responses: the (status, error code, message) triple a caller
can observe for each fault.  Uncaught exceptions surface as a generic
HTTP 500 produced by the framework, not by this handler. -/
def surfaceError : Fault → Nat × String × String
  | .notFound m => (404, "not_found", m)
  | .permissionDenied m => (403, "forbidden", m)
  | .badRequest m => (400, "bad_request", m)
  | .payloadTooLarge m => (413, "payload_too_large", m)
  | .conflict v => (409, "conflict", toString v)
  | .uncaughtInvalidTag => (500, "server_error", "")
  | .serializerFieldMissing _ => (500, "server_error", "")

/-- Access tier returned by _check_key_access ("read" / "write"). -/
inductive AccessLevel where
  | read
  | write
deriving DecidableEq, Repr

/-- A stored Document row (models.py lines 5-21): ciphertext, nonce,
SHA-256 hash of the read key, version. -/
structure Document where
  contentEncrypted : Cipher String
  nonce : Nat
  readKeyHash : Nat
  version : Int
deriving DecidableEq, Repr

/-- Workspace entry type tag ("md" or "workspace"). -/
inductive EntryType where
  | md
  | workspace
deriving DecidableEq, Repr

/-- One workspace entry {type, id, key}; key is optional because
entry.get("key") may be absent (views.py line 290). -/
structure Entry where
  etype : EntryType
  id : Nat
  key : Option Key
deriving DecidableEq, Repr

/-- Decrypted workspace content {name, entries} (the JSON blob). -/
structure WsData where
  name : String
  entries : List Entry
deriving DecidableEq, Repr

/-- A stored Workspace row (models.py lines 24-40). -/
structure Workspace where
  contentEncrypted : Cipher WsData
  nonce : Nat
  readKeyHash : Nat
  version : Int
deriving DecidableEq, Repr

/-- Maximum content size in bytes (views.py line 49). -/
def maxContentSize : Nat := 5 * 1024 * 1024

/-- Document creation at the record level (views.py lines 123-138 of
DocumentCreateView.post): generate write key, derive read key, store the
hash of the read key, encrypt the content under the read key, version 1. -/
def mkDocument (content : String) (writeKey : Key) (nonce : Nat) : Document :=
  let readKey := deriveReadKey writeKey
  let en := encryptContent content readKey nonce
  { contentEncrypted := en.1, nonce := en.2, readKeyHash := hashKey readKey, version := 1 }

/-- Workspace creation at the record level (views.py lines 602-640 of
WorkspaceCreateView.post); json.dumps of the validated data is the
identity on WsData in this model. -/
def mkWorkspace (data : WsData) (writeKey : Key) (nonce : Nat) : Workspace :=
  let readKey := deriveReadKey writeKey
  let en := encryptContent data readKey nonce
  { contentEncrypted := en.1, nonce := en.2, readKeyHash := hashKey readKey, version := 1 }

/-- Model of DocumentDetailView._check_key_access (views.py lines 171-219).
Classifies the presented key against the stored read-key hash; the whole
body runs outside any try/except, but each decrypt attempt is individually
wrapped, so every failure here is a handled PermissionDenied. -/
def checkKeyAccess (doc : Document) (key : Key) (requireWrite : Bool) :
    Except Fault AccessLevel :=
  if hashKey (deriveReadKey key) = doc.readKeyHash then
    match decryptContent doc.contentEncrypted doc.nonce (deriveReadKey key) with
    | some _ => .ok .write
    | none => .error (.permissionDenied "Invalid encryption key.")
  else if hashKey key = doc.readKeyHash then
    if requireWrite then
      .error (.permissionDenied "Read-only access. Write key required.")
    else
      match decryptContent doc.contentEncrypted doc.nonce key with
      | some _ => .ok .read
      | none => .error (.permissionDenied "Invalid encryption key.")
  else
    .error (.permissionDenied "Invalid encryption key.")

/-- Model of DocumentDetailView._decrypt_document (views.py lines 221-242).
The whole body is inside try/except, so any InvalidTag is recovered into
PermissionDenied. -/
def decryptDocument (doc : Document) (key : Key) : Except Fault String :=
  if hashKey (deriveReadKey key) = doc.readKeyHash then
    match decryptContent doc.contentEncrypted doc.nonce (deriveReadKey key) with
    | some s => .ok s
    | none => .error (.permissionDenied "Invalid encryption key.")
  else
    match decryptContent doc.contentEncrypted doc.nonce key with
    | some s => .ok s
    | none => .error (.permissionDenied "Invalid encryption key.")

/-- Workspace tier classification, the first half of
_resolve_workspace_access (views.py lines 267-285): classify the presented
workspace key and decrypt the workspace blob.  The decrypt calls here are
NOT wrapped in try/except in the source; in this ideal model they cannot
fail once the hash matched, but the failure branch is kept and marked
uncaught to mirror the code. -/
def wsClassify (ws : Workspace) (wsKey : Key) : Except Fault (WsData × AccessLevel) :=
  if hashKey (deriveReadKey wsKey) = ws.readKeyHash then
    match decryptContent ws.contentEncrypted ws.nonce (deriveReadKey wsKey) with
    | some d => .ok (d, .write)
    | none => .error .uncaughtInvalidTag
  else if hashKey wsKey = ws.readKeyHash then
    match decryptContent ws.contentEncrypted ws.nonce wsKey with
    | some d => .ok (d, .read)
    | none => .error .uncaughtInvalidTag
  else
    .error (.permissionDenied "Invalid workspace key.")

/-- Entry lookup loop of _resolve_workspace_access (views.py lines
286-294): the first entry whose id and type match wins, and its key (which
may be absent) is taken; the caller turns none into NotFound. -/
def findEntryKey : List Entry → Nat → Option Key
  | [], _ => none
  | e :: rest, docId =>
    if e.id = docId ∧ e.etype = EntryType.md then e.key
    else findEntryKey rest docId

/-- Model of DocumentDetailView._resolve_workspace_access (views.py lines
244-312) for the case where the X-Molt-Workspace header is present.
wsOpt = none models a workspace id that does not resolve (NotFound).
The final decrypt of the target document with the entry key (views.py
lines 296-307) is NOT inside try/except: a tag failure there propagates
as uncaughtInvalidTag. -/
def resolveWorkspaceAccess (wsOpt : Option Workspace) (wsKey : Key)
    (docId : Nat) (doc : Document) : Except Fault (String × AccessLevel) :=
  match wsOpt with
  | none => .error (.notFound "Workspace not found.")
  | some ws =>
    match wsClassify ws wsKey with
    | .error e => .error e
    | .ok (wsData, wsAccess) =>
      match findEntryKey wsData.entries docId with
      | none => .error (.notFound "Document not found in workspace.")
      | some entryKey =>
        if hashKey (deriveReadKey entryKey) = doc.readKeyHash then
          match decryptContent doc.contentEncrypted doc.nonce (deriveReadKey entryKey) with
          | some content => .ok (content, wsAccess)
          | none => .error .uncaughtInvalidTag
        else
          match decryptContent doc.contentEncrypted doc.nonce entryKey with
          | some content => .ok (content, wsAccess)
          | none => .error .uncaughtInvalidTag

/-- Python str trim for int(): drop whitespace from both ends. -/
def pyTrim (cs : List Char) : List Char :=
  ((cs.dropWhile Char.isWhitespace).reverse.dropWhile Char.isWhitespace).reverse

/-- Numeric value of an ASCII digit list (most significant first). -/
def digitsVal (cs : List Char) : Nat :=
  cs.foldl (fun a c => a * 10 + (c.toNat - 48)) 0

/-- Model of CPython int(str) on an already-trimmed character list:
optional single sign then a nonempty run of ASCII digits (underscore
digit grouping is not modelled; no input in this development uses it). -/
def pyIntCore (cs : List Char) : Option Int :=
  match cs with
  | [] => none
  | '+' :: rest =>
    if !rest.isEmpty && rest.all Char.isDigit then some (digitsVal rest) else none
  | '-' :: rest =>
    if !rest.isEmpty && rest.all Char.isDigit then some (-(digitsVal rest : Int)) else none
  | _ =>
    if cs.all Char.isDigit then some (digitsVal cs) else none

/-- Model of CPython int(str): trim whitespace, then parse. -/
def pyInt (s : String) : Option Int := pyIntCore (pyTrim s.data)

/-- Python str.strip with argument a double quote: drop double quote
characters from both ends. -/
def stripDq (cs : List Char) : List Char :=
  ((cs.dropWhile (fun c => c = '"')).reverse.dropWhile (fun c => c = '"')).reverse

/-- Model of the If-Match parsing in views.py lines 429-439 (and 517-528):
int(if_match.strip(qq).replace("v", "")) where qq is a double quote; the
replace deletes every v character.  none models the ValueError branch that
returns the malformed-precondition 400 response. -/
def parsePrecondition (s : String) : Option Int :=
  pyIntCore (pyTrim ((stripDq s.data).filter (fun c => c ≠ 'v')))

/-- Python content.split with separator a newline (views.py line 346);
the empty string splits to one empty line, as in Python. -/
def splitNl : List Char → List (List Char)
  | [] => [[]]
  | c :: rest =>
    let r := splitNl rest
    if c = '\n' then [] :: r
    else
      match r with
      | h :: t => (c :: h) :: t
      | [] => [[c]]

/-- The list of newline-separated lines of a string. -/
def contentLines (s : String) : List String :=
  (splitNl s.data).map (fun l => String.mk l)

/-- Python newline.join (views.py line 350). -/
def joinNl : List String → String
  | [] => ""
  | [x] => x
  | x :: xs => x ++ "\n" ++ joinNl xs

/-- The response observable from a successful document GET: the (possibly
truncated) content, the version (also surfaced as the ETag v<version>),
and the truncation header pair X-Molt-Truncated / X-Molt-Total-Lines,
which is present exactly when truncation happened (views.py lines
329-386). -/
structure GetResp where
  content : String
  version : Int
  truncated : Bool
  totalLines : Option Nat
deriving DecidableEq, Repr

/-- Model of DocumentDetailView.get (views.py lines 314-386).
wsHeader = none models an absent X-Molt-Workspace header; some wsOpt
models a present header resolving to wsOpt.  linesParam is the raw query
parameter; Python treats an empty string as falsy, hence identical to an
absent parameter (views.py line 333). -/
def documentGet (doc : Document) (wsHeader : Option (Option Workspace))
    (key : Key) (docId : Nat) (linesParam : Option String) :
    Except Fault GetResp :=
  let contentE : Except Fault String :=
    match wsHeader with
    | some wsOpt =>
      match resolveWorkspaceAccess wsOpt key docId doc with
      | .error e => .error e
      | .ok (content, _) => .ok content
    | none =>
      match checkKeyAccess doc key false with
      | .error e => .error e
      | .ok _ => decryptDocument doc key
  match contentE with
  | .error e => .error e
  | .ok content =>
    match linesParam with
    | none => .ok { content := content, version := doc.version, truncated := false, totalLines := none }
    | some s =>
      if s = "" then
        .ok { content := content, version := doc.version, truncated := false, totalLines := none }
      else
        match pyInt s with
        | none => .error (.badRequest "lines parameter must be an integer.")
        | some n =>
          if n < 1 then .error (.badRequest "lines parameter must be >= 1.")
          else
            let ls := contentLines content
            let total := ls.length
            if n < (total : Int) then
              .ok { content := joinNl (ls.take n.toNat), version := doc.version,
                    truncated := true, totalLines := some total }
            else
              .ok { content := content, version := doc.version, truncated := false, totalLines := none }

/-- The body of a successful replace/append response (serializers.py
DocumentUpdateResponseSerializer): {success, version}. -/
structure UpdateResp where
  success : Bool
  version : Int
deriving DecidableEq, Repr

/-- The part of PUT before the encrypt+transaction block (views.py lines
390-444): access control (workspace-scoped or direct), Content-Type
check, size check, If-Match parsing and the first optimistic version
check against the initially fetched document.  Returns the expected
version (none when no If-Match header was present). -/
def putPrelude (doc : Document) (wsHeader : Option (Option Workspace))
    (key : Key) (docId : Nat) (bodyIsMarkdown : Bool) (newContent : String)
    (ifMatch : Option String) : Except Fault (Option Int) :=
  let authE : Except Fault Unit :=
    match wsHeader with
    | some wsOpt =>
      match resolveWorkspaceAccess wsOpt key docId doc with
      | .error e => .error e
      | .ok (_, lvl) =>
        match lvl with
        | .write => .ok ()
        | .read => .error (.permissionDenied "Read-only access. Write key required.")
    | none =>
      match checkKeyAccess doc key true with
      | .error e => .error e
      | .ok _ => .ok ()
  match authE with
  | .error e => .error e
  | .ok _ =>
    if !bodyIsMarkdown then .error (.badRequest "Content-Type must be text/markdown.")
    else if newContent.utf8ByteSize > maxContentSize then
      .error (.payloadTooLarge "Content exceeds 5 MB limit.")
    else
      match ifMatch with
      | none => .ok none
      | some s =>
        match parsePrecondition s with
        | none => .error (.badRequest "Malformed If-Match header. Expected format: \"v<number>\".")
        | some v =>
          if doc.version ≠ v then .error (.conflict doc.version)
          else .ok (some v)

/-- The write itself, shared verbatim by PUT (views.py lines 446-449 and
463-471) and PATCH (lines 535-538 and 552-560): encrypt the new content
with the read key derived from the presented header key, then persist the
new ciphertext and nonce with version incremented by exactly one.
Returns the update response together with the stored row after the call. -/
def commitWrite (key : Key) (newContent : String) (lockedDoc : Document)
    (freshNonce : Nat) : Except Fault UpdateResp × Document :=
  let en := encryptContent newContent (deriveReadKey key) freshNonce
  let newDoc : Document :=
    { lockedDoc with contentEncrypted := en.1, nonce := en.2,
                     version := lockedDoc.version + 1 }
  (.ok { success := true, version := newDoc.version }, newDoc)

/-- The locked version double-check guarding the write (views.py lines
452-466 and 541-555): inside the transaction, if an If-Match header was
present and the locked row version differs from the expected version,
return the conflict response with the authoritative current version and
write nothing; otherwise commit. -/
def putCommit (key : Key) (newContent : String) (expected : Option Int)
    (lockedDoc : Document) (freshNonce : Nat) :
    Except Fault UpdateResp × Document :=
  match expected with
  | some v =>
    if lockedDoc.version ≠ v then (.error (.conflict lockedDoc.version), lockedDoc)
    else commitWrite key newContent lockedDoc freshNonce
  | none => commitWrite key newContent lockedDoc freshNonce

/-- Model of DocumentDetailView.put (views.py lines 388-471).  doc is the
initially fetched row; lockedDoc is the row as re-fetched under the
exclusive lock inside the transaction (equal to doc when no concurrent
writer intervened).  The second component is the stored row after the
request: every error path leaves it at lockedDoc. -/
def documentPut (doc : Document) (wsHeader : Option (Option Workspace))
    (key : Key) (docId : Nat) (bodyIsMarkdown : Bool) (newContent : String)
    (ifMatch : Option String) (lockedDoc : Document) (freshNonce : Nat) :
    Except Fault UpdateResp × Document :=
  match putPrelude doc wsHeader key docId bodyIsMarkdown newContent ifMatch with
  | .error e => (.error e, lockedDoc)
  | .ok expected => putCommit key newContent expected lockedDoc freshNonce

/-- The part of PATCH before the encrypt+transaction block (views.py lines
474-533): access control plus obtaining the existing plaintext (from the
workspace resolution or by direct decryption), Content-Type check,
composition existing + newline + appended, size check, If-Match parsing
and the first version check.  Returns the composed content and the
expected version. -/
def patchPrelude (doc : Document) (wsHeader : Option (Option Workspace))
    (key : Key) (docId : Nat) (bodyIsMarkdown : Bool) (appendContent : String)
    (ifMatch : Option String) : Except Fault (String × Option Int) :=
  let existingE : Except Fault String :=
    match wsHeader with
    | some wsOpt =>
      match resolveWorkspaceAccess wsOpt key docId doc with
      | .error e => .error e
      | .ok (content, lvl) =>
        match lvl with
        | .write => .ok content
        | .read => .error (.permissionDenied "Read-only access. Write key required.")
    | none =>
      match checkKeyAccess doc key true with
      | .error e => .error e
      | .ok _ => decryptDocument doc key
  match existingE with
  | .error e => .error e
  | .ok existing =>
    if !bodyIsMarkdown then .error (.badRequest "Content-Type must be text/markdown.")
    else
      let newContent := existing ++ "\n" ++ appendContent
      if newContent.utf8ByteSize > maxContentSize then
        .error (.payloadTooLarge "Combined content exceeds 5 MB limit.")
      else
        match ifMatch with
        | none => .ok (newContent, none)
        | some s =>
          match parsePrecondition s with
          | none => .error (.badRequest "Malformed If-Match header. Expected format: \"v<number>\".")
          | some v =>
            if doc.version ≠ v then .error (.conflict doc.version)
            else .ok (newContent, some v)

/-- Model of DocumentDetailView.patch (views.py lines 473-560), the append
operation: compose then run the same commit protocol as replace. -/
def documentPatch (doc : Document) (wsHeader : Option (Option Workspace))
    (key : Key) (docId : Nat) (bodyIsMarkdown : Bool) (appendContent : String)
    (ifMatch : Option String) (lockedDoc : Document) (freshNonce : Nat) :
    Except Fault UpdateResp × Document :=
  match patchPrelude doc wsHeader key docId bodyIsMarkdown appendContent ifMatch with
  | .error e => (.error e, lockedDoc)
  | .ok nc => putCommit key nc.1 nc.2 lockedDoc freshNonce

/-- Model of DocumentDetailView.delete (views.py lines 562-580): the
access-control decision (ok means the row is deleted, HTTP 204). -/
def documentDelete (doc : Document) (wsHeader : Option (Option Workspace))
    (key : Key) (docId : Nat) : Except Fault Unit :=
  match wsHeader with
  | some wsOpt =>
    match resolveWorkspaceAccess wsOpt key docId doc with
    | .error e => .error e
    | .ok (_, lvl) =>
      match lvl with
      | .write => .ok ()
      | .read => .error (.permissionDenied "Read-only access. Write key required.")
  | none =>
    match checkKeyAccess doc key true with
    | .error e => .error e
    | .ok _ => .ok ()

/-- Model of a DRF Serializer rendering a plain dict instance: each
declared field is looked up by name in the instance dict; a declared
required field absent from the dict makes DRF raise (an HTTP 500), and
dict keys that are not declared fields are dropped. -/
def drfSerializeFields (fields : List String) (inst : List (String × String)) :
    Except Fault (List (String × String)) :=
  match fields with
  | [] => .ok []
  | f :: rest =>
    match inst.lookup f with
    | none => .error (.serializerFieldMissing f)
    | some v =>
      match drfSerializeFields rest inst with
      | .error e => .error e
      | .ok tl => .ok ((f, v) :: tl)

/-- One mutating request against a document: the arguments of a replace
(PUT) or append (PATCH) call other than the stored row itself. -/
inductive MutOp where
  | putOp (wsHeader : Option (Option Workspace)) (key : Key) (docId : Nat)
      (bodyIsMarkdown : Bool) (newContent : String) (ifMatch : Option String)
      (freshNonce : Nat)
  | patchOp (wsHeader : Option (Option Workspace)) (key : Key) (docId : Nat)
      (bodyIsMarkdown : Bool) (appendContent : String) (ifMatch : Option String)
      (freshNonce : Nat)

/-- Apply one mutating request to the current stored row, sequentially
(no concurrent writer: the initially fetched row and the locked re-read
coincide). -/
def applyMutOp (d : Document) : MutOp → Except Fault UpdateResp × Document
  | .putOp wsH key docId bm nc im fn => documentPut d wsH key docId bm nc im d fn
  | .patchOp wsH key docId bm ac im fn => documentPatch d wsH key docId bm ac im d fn

/-- Run a sequence of mutating requests against a document, threading the
stored row. -/
def runMutOps (d : Document) : List MutOp → Document
  | [] => d
  | op :: rest => runMutOps (applyMutOp d op).2 rest

/-- The declared fields of DocumentCreateResponseSerializer
(serializers.py lines 31-36): id and key. -/
def documentCreateResponseFields : List String := ["id", "key"]

/-- Model of the response rendering in DocumentCreateView.post (views.py
lines 140-144): the view passes the dict with keys id, write_key and
read_key to DocumentCreateResponseSerializer. -/
def documentCreateResponse (docId : Nat) (writeKey readKey : Key) :
    Except Fault (List (String × String)) :=
  drfSerializeFields documentCreateResponseFields
    [("id", toString docId), ("write_key", toString writeKey),
     ("read_key", toString readKey)]

end MoltMd

namespace MoltMd

lemma putCommit_ok_version {key : Key} {nc : String} {exp : Option Int}
    {ld : Document} {fn : Nat} {r : UpdateResp} {d2 : Document}
    (h : putCommit key nc exp ld fn = (.ok r, d2)) :
    d2.version = ld.version + 1 ∧ r.version = ld.version + 1 := by
  rcases exp with _ | v
  · simp only [putCommit, commitWrite, Prod.mk.injEq, Except.ok.injEq] at h
    obtain ⟨h1, h2⟩ := h
    subst h2
    simp [← h1]
  · simp only [putCommit, commitWrite] at h
    split at h
    · simp only [Prod.mk.injEq] at h
      exact absurd h.1 (by simp)
    · simp only [Prod.mk.injEq, Except.ok.injEq] at h
      obtain ⟨h1, h2⟩ := h
      subst h2
      simp [← h1]

lemma putCommit_error_doc {key : Key} {nc : String} {exp : Option Int}
    {ld : Document} {fn : Nat} {e : Fault} {d2 : Document}
    (h : putCommit key nc exp ld fn = (.error e, d2)) : d2 = ld := by
  rcases exp with _ | v
  · simp only [putCommit, commitWrite, Prod.mk.injEq] at h
    exact absurd h.1 (by simp)
  · simp only [putCommit, commitWrite] at h
    split at h
    · simp only [Prod.mk.injEq] at h
      exact h.2.symm
    · simp only [Prod.mk.injEq] at h
      exact absurd h.1 (by simp)

lemma putCommit_version_step (key : Key) (nc : String) (exp : Option Int)
    (ld : Document) (fn : Nat) :
    (putCommit key nc exp ld fn).2.version = ld.version ∨
    (putCommit key nc exp ld fn).2.version = ld.version + 1 := by
  rcases exp with _ | v
  · right; rfl
  · simp only [putCommit, commitWrite]
    split
    · left; rfl
    · right; rfl

end MoltMd

namespace MoltMd

lemma documentPut_ok_version {doc : Document} {wsH : Option (Option Workspace)}
    {key : Key} {docId : Nat} {bm : Bool} {nc : String} {im : Option String}
    {ld : Document} {fn : Nat} {r : UpdateResp} {d2 : Document}
    (h : documentPut doc wsH key docId bm nc im ld fn = (.ok r, d2)) :
    d2.version = ld.version + 1 ∧ r.version = ld.version + 1 := by
  unfold documentPut at h
  cases hp : putPrelude doc wsH key docId bm nc im with
  | error e =>
    rw [hp] at h
    simp only [Prod.mk.injEq] at h
    exact absurd h.1 (by simp)
  | ok exp =>
    rw [hp] at h
    exact putCommit_ok_version h

lemma documentPut_error_doc {doc : Document} {wsH : Option (Option Workspace)}
    {key : Key} {docId : Nat} {bm : Bool} {nc : String} {im : Option String}
    {ld : Document} {fn : Nat} {e : Fault} {d2 : Document}
    (h : documentPut doc wsH key docId bm nc im ld fn = (.error e, d2)) : d2 = ld := by
  unfold documentPut at h
  cases hp : putPrelude doc wsH key docId bm nc im with
  | error e2 =>
    rw [hp] at h
    simp only [Prod.mk.injEq] at h
    exact h.2.symm
  | ok exp =>
    rw [hp] at h
    exact putCommit_error_doc h

lemma documentPatch_ok_version {doc : Document} {wsH : Option (Option Workspace)}
    {key : Key} {docId : Nat} {bm : Bool} {ac : String} {im : Option String}
    {ld : Document} {fn : Nat} {r : UpdateResp} {d2 : Document}
    (h : documentPatch doc wsH key docId bm ac im ld fn = (.ok r, d2)) :
    d2.version = ld.version + 1 ∧ r.version = ld.version + 1 := by
  unfold documentPatch at h
  cases hp : patchPrelude doc wsH key docId bm ac im with
  | error e =>
    rw [hp] at h
    simp only [Prod.mk.injEq] at h
    exact absurd h.1 (by simp)
  | ok nc2 =>
    rw [hp] at h
    exact putCommit_ok_version h

lemma documentPatch_error_doc {doc : Document} {wsH : Option (Option Workspace)}
    {key : Key} {docId : Nat} {bm : Bool} {ac : String} {im : Option String}
    {ld : Document} {fn : Nat} {e : Fault} {d2 : Document}
    (h : documentPatch doc wsH key docId bm ac im ld fn = (.error e, d2)) : d2 = ld := by
  unfold documentPatch at h
  cases hp : patchPrelude doc wsH key docId bm ac im with
  | error e2 =>
    rw [hp] at h
    simp only [Prod.mk.injEq] at h
    exact h.2.symm
  | ok nc2 =>
    rw [hp] at h
    exact putCommit_error_doc h

lemma applyMutOp_version_step (d : Document) (op : MutOp) :
    (applyMutOp d op).2.version = d.version ∨
    (applyMutOp d op).2.version = d.version + 1 := by
  cases op with
  | putOp wsH key docId bm nc im fn =>
    simp only [applyMutOp]
    cases hq : documentPut d wsH key docId bm nc im d fn with
    | mk res d2 =>
      cases res with
      | error e =>
        left
        simp only
        rw [documentPut_error_doc hq]
      | ok r =>
        right
        simp only
        exact (documentPut_ok_version hq).1
  | patchOp wsH key docId bm ac im fn =>
    simp only [applyMutOp]
    cases hq : documentPatch d wsH key docId bm ac im d fn with
    | mk res d2 =>
      cases res with
      | error e =>
        left
        simp only
        rw [documentPatch_error_doc hq]
      | ok r =>
        right
        simp only
        exact (documentPatch_ok_version hq).1

lemma runMutOps_version_mono (d : Document) (ops : List MutOp) :
    d.version ≤ (runMutOps d ops).version := by
  induction ops generalizing d with
  | nil => exact le_refl _
  | cons op rest ih =>
    have step := applyMutOp_version_step d op
    have tail := ih (applyMutOp d op).2
    unfold runMutOps
    rcases step with hs | hs
    · omega
    · omega

end MoltMd

namespace MoltMd

/-- C6: a document is created with version 1; every successful replace or
append increments the stored version by exactly 1 (and reports that new
version); every failed mutation leaves the row untouched; hence over any
sequence of mutating operations the version takes unit steps and never
decreases. -/
theorem C6_version_counter :
    (∀ (m : String) (k : Key) (n : Nat), (mkDocument m k n).version = 1) ∧
    (∀ doc wsH key docId bm nc im ld fn r d2,
       documentPut doc wsH key docId bm nc im ld fn = (.ok r, d2) →
       d2.version = ld.version + 1 ∧ r.version = ld.version + 1) ∧
    (∀ doc wsH key docId bm nc im ld fn e d2,
       documentPut doc wsH key docId bm nc im ld fn = (.error e, d2) → d2 = ld) ∧
    (∀ doc wsH key docId bm ac im ld fn r d2,
       documentPatch doc wsH key docId bm ac im ld fn = (.ok r, d2) →
       d2.version = ld.version + 1 ∧ r.version = ld.version + 1) ∧
    (∀ doc wsH key docId bm ac im ld fn e d2,
       documentPatch doc wsH key docId bm ac im ld fn = (.error e, d2) → d2 = ld) ∧
    (∀ d op, (applyMutOp d op).2.version = d.version ∨
             (applyMutOp d op).2.version = d.version + 1) ∧
    (∀ d ops, d.version ≤ (runMutOps d ops).version) := by
  refine ⟨fun m k n => rfl, ?_, ?_, ?_, ?_, applyMutOp_version_step, runMutOps_version_mono⟩
  · intro doc wsH key docId bm nc im ld fn r d2 h
    exact documentPut_ok_version h
  · intro doc wsH key docId bm nc im ld fn e d2 h
    exact documentPut_error_doc h
  · intro doc wsH key docId bm ac im ld fn r d2 h
    exact documentPatch_ok_version h
  · intro doc wsH key docId bm ac im ld fn e d2 h
    exact documentPatch_error_doc h

/-- Witness for C6 at a concrete run: a fresh document has version 1 and
one successful direct replace moves the stored version from 1 to 2. -/
theorem C6_version_counter_witness :
    (mkDocument "x" 0 0).version = 1 ∧
    documentPut (mkDocument "x" 0 0) none 0 7 true "y" none (mkDocument "x" 0 0) 5 =
      (.ok ⟨true, 2⟩, ⟨⟨"y", 1, 5⟩, 5, 1, 2⟩) ∧
    (⟨⟨"y", 1, 5⟩, 5, 1, 2⟩ : Document).version = (mkDocument "x" 0 0).version + 1 := by
  have h : documentPut (mkDocument "x" 0 0) none 0 7 true "y" none (mkDocument "x" 0 0) 5 =
      (.ok ⟨true, 2⟩, ⟨⟨"y", 1, 5⟩, 5, 1, 2⟩) := rfl
  exact ⟨C6_version_counter.1 "x" 0 0, h,
    (C6_version_counter.2.1 _ _ _ _ _ _ _ _ _ _ _ h).1⟩

/-- C7: when a well-formed precondition passes the first optimistic check
but the version re-read under the exclusive lock differs from the expected
version, replace and append fail with a conflict carrying the locked
(authoritative) current version and the stored row is left unchanged. -/
theorem C7_locked_recheck_conflict :
    (∀ doc wsH key docId bm nc s v ld fn,
       putPrelude doc wsH key docId bm nc (some s) = .ok (some v) →
       v ≠ ld.version →
       documentPut doc wsH key docId bm nc (some s) ld fn =
         (.error (.conflict ld.version), ld)) ∧
    (∀ doc wsH key docId bm ac s nc2 v ld fn,
       patchPrelude doc wsH key docId bm ac (some s) = .ok (nc2, some v) →
       v ≠ ld.version →
       documentPatch doc wsH key docId bm ac (some s) ld fn =
         (.error (.conflict ld.version), ld)) := by
  constructor
  · intro doc wsH key docId bm nc s v ld fn hp hv
    have hvv : ld.version ≠ v := fun h => hv h.symm
    simp [documentPut, hp, putCommit, hvv]
  · intro doc wsH key docId bm ac s nc2 v ld fn hp hv
    have hvv : ld.version ≠ v := fun h => hv h.symm
    simp [documentPatch, hp, putCommit, hvv]

/-- Witness for C7: a replace with precondition v1 on a document whose
locked version is 2 conflicts and reports version 2, leaving the row as it
was. -/
theorem C7_locked_recheck_conflict_witness :
    putPrelude (mkDocument "x" 0 0) none 0 7 true "y" (some "v1") = .ok (some 1) ∧
    (1 : Int) ≠ (⟨⟨"x", 1, 0⟩, 0, 1, 2⟩ : Document).version ∧
    documentPut (mkDocument "x" 0 0) none 0 7 true "y" (some "v1")
        (⟨⟨"x", 1, 0⟩, 0, 1, 2⟩ : Document) 5 =
      (.error (.conflict 2), ⟨⟨"x", 1, 0⟩, 0, 1, 2⟩) := by
  refine ⟨rfl, by decide, ?_⟩
  exact C7_locked_recheck_conflict.1 (mkDocument "x" 0 0) none 0 7 true "y" "v1" 1
    (⟨⟨"x", 1, 0⟩, 0, 1, 2⟩ : Document) 5 rfl (by decide)

end MoltMd

namespace MoltMd

/-- C1: the access level returned by workspace-scoped resolution is the
one classified for the workspace capability itself, never the tier of the
entry key; concretely, a workspace opened with its read capability whose
entry embeds the document write capability yields a successful GET and
authorization failures for PUT, PATCH and DELETE. -/
theorem C1_effective_tier_is_workspace_tier :
    (∀ wsOpt wsKey docId doc c lvl,
       resolveWorkspaceAccess wsOpt wsKey docId doc = .ok (c, lvl) →
       ∃ ws d, wsOpt = some ws ∧ wsClassify ws wsKey = .ok (d, lvl)) ∧
    (∀ (m nm : String) (dW wsW : Key) (n0 n1 fn : Nat) (docId : Nat)
       (body app : String) (im : Option String) (ld : Document),
       documentGet (mkDocument m dW n0)
         (some (some (mkWorkspace ⟨nm, [⟨.md, docId, some dW⟩]⟩ wsW n1)))
         (deriveReadKey wsW) docId none = .ok ⟨m, 1, false, none⟩ ∧
       (documentPut (mkDocument m dW n0)
         (some (some (mkWorkspace ⟨nm, [⟨.md, docId, some dW⟩]⟩ wsW n1)))
         (deriveReadKey wsW) docId true body im ld fn).1 =
         .error (.permissionDenied "Read-only access. Write key required.") ∧
       (documentPatch (mkDocument m dW n0)
         (some (some (mkWorkspace ⟨nm, [⟨.md, docId, some dW⟩]⟩ wsW n1)))
         (deriveReadKey wsW) docId true app im ld fn).1 =
         .error (.permissionDenied "Read-only access. Write key required.") ∧
       documentDelete (mkDocument m dW n0)
         (some (some (mkWorkspace ⟨nm, [⟨.md, docId, some dW⟩]⟩ wsW n1)))
         (deriveReadKey wsW) docId =
         .error (.permissionDenied "Read-only access. Write key required.")) := by
  constructor
  · intro wsOpt wsKey docId doc c lvl h
    cases wsOpt with
    | none =>
      simp only [resolveWorkspaceAccess] at h
      exact absurd h (by simp)
    | some ws =>
      refine ⟨ws, ?_⟩
      simp only [resolveWorkspaceAccess] at h
      split at h
      · simp at h
      · rename_i wsData wsAccess heq
        split at h
        · simp at h
        · split at h
          · split at h
            · simp only [Except.ok.injEq, Prod.mk.injEq] at h
              exact ⟨wsData, rfl, by rw [heq, h.2]⟩
            · simp at h
          · split at h
            · simp only [Except.ok.injEq, Prod.mk.injEq] at h
              exact ⟨wsData, rfl, by rw [heq, h.2]⟩
            · simp at h
  · intro m nm dW wsW n0 n1 fn docId body app im ld
    have hres : resolveWorkspaceAccess
        (some (mkWorkspace ⟨nm, [⟨.md, docId, some dW⟩]⟩ wsW n1))
        (deriveReadKey wsW) docId (mkDocument m dW n0) = .ok (m, .read) := by
      have hne : ¬ (wsW + 1 + 1 = wsW + 1) := by simp
      simp [resolveWorkspaceAccess, wsClassify, mkWorkspace, mkDocument,
        encryptContent, decryptContent, hashKey, deriveReadKey, findEntryKey, hne]
    refine ⟨?_, ?_, ?_, ?_⟩
    · simp only [documentGet]
      rw [hres]
      simp [mkDocument]
    · simp only [documentPut, putPrelude]
      rw [hres]
    · simp only [documentPatch, patchPrelude]
      rw [hres]
    · simp only [documentDelete]
      rw [hres]

/-- Witness for C1: the general conjunct applied to a concrete workspace
read-capability access, plus the concrete scenario. -/
theorem C1_effective_tier_is_workspace_tier_witness :
    ∃ ws d, (some (mkWorkspace ⟨"w", [⟨.md, 7, some 0⟩]⟩ 10 1) : Option Workspace) = some ws ∧
      wsClassify ws 11 = .ok (d, .read) := by
  exact C1_effective_tier_is_workspace_tier.1
    (some (mkWorkspace ⟨"w", [⟨.md, 7, some 0⟩]⟩ 10 1)) 11 7 (mkDocument "orig" 0 0)
    "orig" .read rfl

end MoltMd

namespace MoltMd

/-- C8: AEAD round-trip, and a freshly created document read back directly
with the write key, and separately with the derived read key, returns
exactly the created content. -/
theorem C8_encrypt_decrypt_roundtrip :
    (∀ (α : Type) (m : α) (k : Key) (n : Nat),
       decryptContent (encryptContent m k n).1 (encryptContent m k n).2 k = some m) ∧
    (∀ (m : String) (wk : Key) (n0 docId : Nat),
       documentGet (mkDocument m wk n0) none wk docId none =
         .ok ⟨m, 1, false, none⟩) ∧
    (∀ (m : String) (wk : Key) (n0 docId : Nat),
       documentGet (mkDocument m wk n0) none (deriveReadKey wk) docId none =
         .ok ⟨m, 1, false, none⟩) := by
  refine ⟨?_, ?_, ?_⟩
  · intro α m k n
    simp [encryptContent, decryptContent]
  · intro m wk n0 docId
    simp [documentGet, checkKeyAccess, decryptDocument, mkDocument,
      encryptContent, decryptContent, hashKey, deriveReadKey]
  · intro m wk n0 docId
    have hne : ¬ (wk + 1 + 1 = wk + 1) := by simp
    simp [documentGet, checkKeyAccess, decryptDocument, mkDocument,
      encryptContent, decryptContent, hashKey, deriveReadKey, hne]

/-- C9: the document create response serializer declares only the fields
id and key, while the view hands it the dict with keys id, write_key and
read_key; rendering therefore fails on the missing declared field key, so
no successful create response carrying write_key and read_key exists. -/
theorem C9_create_response_missing_keys :
    ∀ (docId : Nat) (wk rk : Key),
      documentCreateResponse docId wk rk = .error (.serializerFieldMissing "key") := by
  intro docId wk rk
  rfl

/-- C2 at the failing input: a workspace-scoped replace succeeds, keeps the
stored verification hash unchanged, but re-encrypts the document under the
read key derived from the presented workspace capability, so the document
read key that produced the stored hash no longer decrypts the new
ciphertext, while the workspace-derived key does. -/
theorem C2_ws_replace_breaks_own_read_key :
    (documentPut (mkDocument "orig" 0 0)
        (some (some (mkWorkspace ⟨"w", [⟨.md, 7, some 0⟩]⟩ 10 1)))
        10 7 true "new" none (mkDocument "orig" 0 0) 99).1 = .ok ⟨true, 2⟩ ∧
    (documentPut (mkDocument "orig" 0 0)
        (some (some (mkWorkspace ⟨"w", [⟨.md, 7, some 0⟩]⟩ 10 1)))
        10 7 true "new" none (mkDocument "orig" 0 0) 99).2.readKeyHash =
      (mkDocument "orig" 0 0).readKeyHash ∧
    decryptContent
      (documentPut (mkDocument "orig" 0 0)
        (some (some (mkWorkspace ⟨"w", [⟨.md, 7, some 0⟩]⟩ 10 1)))
        10 7 true "new" none (mkDocument "orig" 0 0) 99).2.contentEncrypted
      (documentPut (mkDocument "orig" 0 0)
        (some (some (mkWorkspace ⟨"w", [⟨.md, 7, some 0⟩]⟩ 10 1)))
        10 7 true "new" none (mkDocument "orig" 0 0) 99).2.nonce
      (deriveReadKey 0) = none ∧
    decryptContent
      (documentPut (mkDocument "orig" 0 0)
        (some (some (mkWorkspace ⟨"w", [⟨.md, 7, some 0⟩]⟩ 10 1)))
        10 7 true "new" none (mkDocument "orig" 0 0) 99).2.contentEncrypted
      (documentPut (mkDocument "orig" 0 0)
        (some (some (mkWorkspace ⟨"w", [⟨.md, 7, some 0⟩]⟩ 10 1)))
        10 7 true "new" none (mkDocument "orig" 0 0) 99).2.nonce
      (deriveReadKey 10) = some "new" := by
  refine ⟨rfl, rfl, rfl, rfl⟩

end MoltMd

namespace MoltMd

/-- C3 counterexample: a workspace whose entry embeds a key matching
neither hash of the target document makes workspace-scoped resolution hit
the unwrapped decrypt, and the tag failure propagates as an uncaught
fault rather than being converted to an authorization error. -/
theorem C3_entry_key_tag_failure_uncaught :
    resolveWorkspaceAccess
        (some (mkWorkspace ⟨"w", [⟨.md, 7, some 50⟩]⟩ 10 1)) 10 7
        (mkDocument "m" 0 0) = .error .uncaughtInvalidTag ∧
    ∀ msg, (Fault.uncaughtInvalidTag : Fault) ≠ .permissionDenied msg := by
  exact ⟨rfl, fun msg h => Fault.noConfusion h⟩

/-- C3 amended: every tag failure inside _check_key_access and
_decrypt_document is converted to PermissionDenied (those helpers never
produce the uncaught fault), but workspace-scoped resolution can let a tag
failure on the entry-key decrypt of the target escape unhandled. -/
theorem C3_tag_failure_handling :
    (∀ doc k rw e, checkKeyAccess doc k rw = .error e →
       ∃ msg, e = .permissionDenied msg) ∧
    (∀ doc k e, decryptDocument doc k = .error e →
       ∃ msg, e = .permissionDenied msg) ∧
    resolveWorkspaceAccess
        (some (mkWorkspace ⟨"w2", [⟨.md, 3, some 60⟩]⟩ 20 4)) 20 3
        (mkDocument "mm" 8 2) = .error .uncaughtInvalidTag := by
  refine ⟨?_, ?_, rfl⟩
  · intro doc k rw e h
    unfold checkKeyAccess at h
    repeat' split at h
    all_goals first
      | (simp only [Except.error.injEq] at h; exact ⟨_, h.symm⟩)
      | exact absurd h (by simp)
  · intro doc k e h
    unfold decryptDocument at h
    repeat' split at h
    all_goals first
      | (simp only [Except.error.injEq] at h; exact ⟨_, h.symm⟩)
      | exact absurd h (by simp)

/-- Witness for C3 amended: the first conjunct applied to a concrete
invalid key. -/
theorem C3_tag_failure_handling_witness :
    ∃ msg, (Fault.permissionDenied "Invalid encryption key." : Fault) =
      .permissionDenied msg := by
  exact C3_tag_failure_handling.1 (mkDocument "m" 0 0) 5 false
    (.permissionDenied "Invalid encryption key.") rfl

/-- C4 counterexample: on the same document, presenting the valid read key
to a write-tier operation and presenting a key matching neither hash both
yield PermissionDenied, but with different messages, so the surfaced
responses are distinguishable. -/
theorem C4_read_vs_invalid_distinguishable :
    checkKeyAccess (mkDocument "x" 0 0) 1 true =
      .error (.permissionDenied "Read-only access. Write key required.") ∧
    checkKeyAccess (mkDocument "x" 0 0) 5 true =
      .error (.permissionDenied "Invalid encryption key.") ∧
    surfaceError (.permissionDenied "Read-only access. Write key required.") ≠
      surfaceError (.permissionDenied "Invalid encryption key.") := by
  refine ⟨rfl, rfl, by decide⟩

/-- C4 amended: the two failures share HTTP status 403 and error code
forbidden, but carry distinct messages, hence the responses are not
identical. -/
theorem C4_same_status_different_message :
    (∀ doc (k : Key), hashKey (deriveReadKey k) ≠ doc.readKeyHash →
       hashKey k = doc.readKeyHash →
       checkKeyAccess doc k true =
         .error (.permissionDenied "Read-only access. Write key required.")) ∧
    (∀ doc (g : Key), hashKey (deriveReadKey g) ≠ doc.readKeyHash →
       hashKey g ≠ doc.readKeyHash →
       checkKeyAccess doc g true =
         .error (.permissionDenied "Invalid encryption key.")) ∧
    (surfaceError (.permissionDenied "Read-only access. Write key required.")).1 =
      (surfaceError (.permissionDenied "Invalid encryption key.")).1 ∧
    (surfaceError (.permissionDenied "Read-only access. Write key required.")).2.1 =
      (surfaceError (.permissionDenied "Invalid encryption key.")).2.1 ∧
    surfaceError (.permissionDenied "Read-only access. Write key required.") ≠
      surfaceError (.permissionDenied "Invalid encryption key.") := by
  refine ⟨?_, ?_, rfl, rfl, by decide⟩
  · intro doc k h1 h2
    simp [checkKeyAccess, h1, h2]
  · intro doc g h1 h2
    simp [checkKeyAccess, h1, h2]

/-- Witness for C4 amended: both conjuncts applied to a concrete document
with its read key and a garbage key. -/
theorem C4_same_status_different_message_witness :
    checkKeyAccess (mkDocument "y" 2 0) 3 true =
      .error (.permissionDenied "Read-only access. Write key required.") ∧
    checkKeyAccess (mkDocument "y" 2 0) 9 true =
      .error (.permissionDenied "Invalid encryption key.") := by
  exact ⟨C4_same_status_different_message.1 (mkDocument "y" 2 0) 3
      (by decide) (by decide),
    C4_same_status_different_message.2.1 (mkDocument "y" 2 0) 9
      (by decide) (by decide)⟩

end MoltMd

namespace MoltMd

/-- C5 counterexample: the bare token 1, which does not have the form
v<integer>, is not rejected as malformed; it is parsed as expected
version 1 and the replace succeeds. -/
theorem C5_bare_integer_token_accepted :
    parsePrecondition "1" = some 1 ∧
    documentPut (mkDocument "x" 0 0) none 0 7 true "y" (some "1")
        (mkDocument "x" 0 0) 5 =
      (.ok ⟨true, 2⟩, ⟨⟨"y", 1, 5⟩, 5, 1, 2⟩) := by
  exact ⟨rfl, rfl⟩

/-- C5 amended: a precondition token is rejected as malformed exactly when
stripping surrounding double quotes and deleting every v character leaves
something that does not parse as a Python integer; any token whose residue
parses is accepted and interpreted as that integer, including bare
integers and tokens with repeated v characters. -/
theorem C5_precondition_parse_is_lenient :
    (∀ (m : String) (wk : Key) (n0 docId : Nat) (nc s : String)
       (ld : Document) (fn : Nat),
       nc.utf8ByteSize ≤ maxContentSize →
       parsePrecondition s = none →
       (documentPut (mkDocument m wk n0) none wk docId true nc (some s) ld fn).1 =
         .error (.badRequest "Malformed If-Match header. Expected format: \"v<number>\".")) ∧
    (∀ (m : String) (wk : Key) (n0 docId : Nat) (nc s : String) (v : Int)
       (ld : Document) (fn : Nat),
       parsePrecondition s = some v →
       (documentPut (mkDocument m wk n0) none wk docId true nc (some s) ld fn).1 ≠
         .error (.badRequest "Malformed If-Match header. Expected format: \"v<number>\".")) ∧
    parsePrecondition "v7" = some 7 ∧
    parsePrecondition "7" = some 7 ∧
    parsePrecondition "v1v2" = some 12 := by
  refine ⟨?_, ?_, rfl, rfl, rfl⟩
  · intro m wk n0 docId nc s ld fn hsz hp
    have hw : checkKeyAccess (mkDocument m wk n0) wk true = .ok .write := by
      simp [checkKeyAccess, mkDocument, encryptContent, decryptContent,
        hashKey, deriveReadKey]
    have hsz2 : ¬ (nc.utf8ByteSize > maxContentSize) := by omega
    simp [documentPut, putPrelude, hw, hsz2, hp]
  · intro m wk n0 docId nc s v ld fn hp
    have hw : checkKeyAccess (mkDocument m wk n0) wk true = .ok .write := by
      simp [checkKeyAccess, mkDocument, encryptContent, decryptContent,
        hashKey, deriveReadKey]
    by_cases hsz : nc.utf8ByteSize > maxContentSize
    · simp [documentPut, putPrelude, hw, hsz]
    · by_cases hv : (mkDocument m wk n0).version = v
      · by_cases hl : ld.version = v
        · simp [documentPut, putPrelude, putCommit, commitWrite, hw, hsz, hp, hv, hl]
        · simp [documentPut, putPrelude, putCommit, hw, hsz, hp, hv, hl]
      · simp [documentPut, putPrelude, hw, hsz, hp, hv]

/-- Witness for C5 amended: a token with no digits is rejected as
malformed. -/
theorem C5_precondition_parse_is_lenient_witness :
    (documentPut (mkDocument "x" 0 0) none 0 7 true "y" (some "x9")
        (mkDocument "x" 0 0) 5).1 =
      .error (.badRequest "Malformed If-Match header. Expected format: \"v<number>\".") := by
  exact C5_precondition_parse_is_lenient.1 "x" 0 0 7 "y" "x9"
    (mkDocument "x" 0 0) 5 (by decide) rfl

/-- C10 counterexample: a GET carrying the lines parameter with the empty
value, which is not a positive integer, does not fail with a validation
error; it returns the full content with no truncation metadata. -/
theorem C10_empty_lines_param_not_rejected :
    documentGet (mkDocument "a\nb" 0 0) none 0 7 (some "") =
      .ok ⟨"a\nb", 1, false, none⟩ := by
  rfl

/-- C10 amended: an empty lines parameter is treated as absent (Python
falsiness); otherwise a value that does not parse as an integer, or parses
below 1, yields a validation error; a parsed value at least the line count
returns the full content without truncation metadata; a parsed value below
the line count returns exactly the first n lines plus the truncation flag
and total line count. -/
theorem C10_lines_param_semantics :
    (∀ (m : String) (wk : Key) (n0 docId : Nat),
       documentGet (mkDocument m wk n0) none wk docId (some "") =
         .ok ⟨m, 1, false, none⟩) ∧
    (∀ (m : String) (wk : Key) (n0 docId : Nat) (s : String),
       s ≠ "" → pyInt s = none →
       documentGet (mkDocument m wk n0) none wk docId (some s) =
         .error (.badRequest "lines parameter must be an integer.")) ∧
    (∀ (m : String) (wk : Key) (n0 docId : Nat) (s : String) (z : Int),
       pyInt s = some z → z < 1 →
       documentGet (mkDocument m wk n0) none wk docId (some s) =
         .error (.badRequest "lines parameter must be >= 1.")) ∧
    (∀ (m : String) (wk : Key) (n0 docId : Nat) (s : String) (z : Int),
       pyInt s = some z → 1 ≤ z → ((contentLines m).length : Int) ≤ z →
       documentGet (mkDocument m wk n0) none wk docId (some s) =
         .ok ⟨m, 1, false, none⟩) ∧
    (∀ (m : String) (wk : Key) (n0 docId : Nat) (s : String) (z : Int),
       pyInt s = some z → 1 ≤ z → z < ((contentLines m).length : Int) →
       documentGet (mkDocument m wk n0) none wk docId (some s) =
         .ok ⟨joinNl ((contentLines m).take z.toNat), 1, true,
              some (contentLines m).length⟩) := by
  refine ⟨?_, ?_, ?_, ?_, ?_⟩
  · intro m wk n0 docId
    simp [documentGet, checkKeyAccess, decryptDocument, mkDocument,
      encryptContent, decryptContent, hashKey, deriveReadKey]
  · intro m wk n0 docId s hs hp
    simp [documentGet, checkKeyAccess, decryptDocument, mkDocument,
      encryptContent, decryptContent, hashKey, deriveReadKey, hs, hp]
  · intro m wk n0 docId s z hp hz
    have hs : s ≠ "" := by
      intro he
      rw [he] at hp
      simp [pyInt, pyTrim, pyIntCore] at hp
    simp [documentGet, checkKeyAccess, decryptDocument, mkDocument,
      encryptContent, decryptContent, hashKey, deriveReadKey, hs, hp, hz]
  · intro m wk n0 docId s z hp hz1 hz2
    have hs : s ≠ "" := by
      intro he
      rw [he] at hp
      simp [pyInt, pyTrim, pyIntCore] at hp
    have h1 : ¬ (z < 1) := by omega
    have h2 : ¬ (z < ((contentLines m).length : Int)) := by omega
    simp [documentGet, checkKeyAccess, decryptDocument, mkDocument,
      encryptContent, decryptContent, hashKey, deriveReadKey, hs, hp, h1, h2]
  · intro m wk n0 docId s z hp hz1 hz3
    have hs : s ≠ "" := by
      intro he
      rw [he] at hp
      simp [pyInt, pyTrim, pyIntCore] at hp
    have h1 : ¬ (z < 1) := by omega
    simp [documentGet, checkKeyAccess, decryptDocument, mkDocument,
      encryptContent, decryptContent, hashKey, deriveReadKey, hs, hp, h1, hz3]

/-- Witness for C10 amended: a three-line document truncated to its first
two lines, and a non-numeric parameter rejected. -/
theorem C10_lines_param_semantics_witness :
    documentGet (mkDocument "a\nb\nc" 0 0) none 0 7 (some "2") =
      .ok ⟨"a\nb", 1, true, some 3⟩ ∧
    documentGet (mkDocument "a\nb\nc" 0 0) none 0 7 (some "zz") =
      .error (.badRequest "lines parameter must be an integer.") := by
  constructor
  · have h := C10_lines_param_semantics.2.2.2.2 "a\nb\nc" 0 0 7 "2" 2
      rfl (by decide) (by decide)
    simpa using h
  · exact C10_lines_param_semantics.2.1 "a\nb\nc" 0 0 7 "zz" (by decide) rfl

end MoltMd
